import Mathlib

/-!
Verification of the shipment-log extraction pipeline (`extract_logs.py`).

The development shallowly embeds the core of the program:

* the four regular-expression extractions of `Shipment.__init__` /
  `Shipment.extract` are embedded as explicit left-to-right scanners with
  Python `re.findall` semantics (leftmost, non-overlapping matches,
  greedy character classes, one capture group returned per match);
* the per-file triage of `Shipments.extract_information` is embedded as a
  step function on an explicit run state (report table, four counters,
  event log), with Python exceptions modelled by `Except`;
* `Shipments.export_dataframe`'s `drop_duplicates` is embedded as a
  keep-first deduplication pass keyed on
  (`distribution_order_number`, `airwaybill`).

Character classes use the ASCII readings of `\d`, `\w`, `\s`, matching the
ASCII log data the program processes.
-/

/-- ASCII reading of the regex class `\w`: letters, digits, underscore. -/
def isWordChar (c : Char) : Bool :=
  c.isAlphanum || c = '_'

/-- ASCII reading of the regex class `\s`: the six ASCII whitespace chars. -/
def isSpaceChar (c : Char) : Bool :=
  c = ' ' || c = '\t' || c = '\n' || c = '\r' || c = '\x0b' || c = '\x0c'

/-- Drops the literal `ps` from the front of `l`; `none` when `l` does not
start with `ps`.  Used to embed literal fragments of the patterns. -/
def dropLit : List Char → List Char → Option (List Char)
  | [], l => some l
  | _ :: _, [] => none
  | p :: ps, c :: cs => if p = c then dropLit ps cs else none

/-- Python's substring test `needle in haystack` (`extract_information`
line 317 and `_check_if_1Details` line 242). -/
def listContains (needle : List Char) : List Char → Bool
  | [] => needle.isEmpty
  | c :: rest => (dropLit needle (c :: rest)).isSome || listContains needle rest

/-- Substring test on strings, argument order (haystack, needle). -/
def strContains (haystack needle : String) : Bool :=
  listContains needle.toList haystack.toList

/-- Python `pathlib.Path.name`: the component after the last slash. -/
def pathName (p : String) : String :=
  String.mk ((p.toList.reverse.takeWhile (fun c => c ≠ '/')).reverse)

/-- The literal fragment `Shipment:` shared by two of the patterns. -/
def shipmentLit : List Char :=
  ['S', 'h', 'i', 'p', 'm', 'e', 'n', 't', ':']

/-- One attempted match of `Shipment:[\s]+([\w]+)` (the
`job_number_pattern`) at the head of `l`: the literal, one or more
whitespace chars (greedy), then the captured maximal word-char run.
Returns the capture and the remainder after the whole match. -/
def matchJobAt (l : List Char) : Option (String × List Char) :=
  match dropLit shipmentLit l with
  | none => none
  | some r1 =>
    let sp := r1.takeWhile isSpaceChar
    if sp.length = 0 then none
    else
      let r2 := r1.drop sp.length
      let w := r2.takeWhile isWordChar
      if w.length = 0 then none
      else some (String.mk w, r2.drop w.length)

/-- One attempted match of `Shipment:[\s]+[\w]+-([\w]+)` (the
`distribution_order_number_p` pattern) at the head of `l`.  The greedy
`[\w]+` before the hyphen necessarily takes the maximal word run: a
shorter run would have to be followed by a word char, never by `-`. -/
def matchDonAt (l : List Char) : Option (String × List Char) :=
  match dropLit shipmentLit l with
  | none => none
  | some r1 =>
    let sp := r1.takeWhile isSpaceChar
    if sp.length = 0 then none
    else
      let r2 := r1.drop sp.length
      let w1 := r2.takeWhile isWordChar
      if w1.length = 0 then none
      else
        match r2.drop w1.length with
        | '-' :: r3 =>
          let w2 := r3.takeWhile isWordChar
          if w2.length = 0 then none
          else some (String.mk w2, r3.drop w2.length)
        | _ => none

/-- One attempted match of `,[\s]([\w]+),` (the `airwaybill_pattern`) at
the head of `l`: a comma, exactly one whitespace char, the captured
maximal word run, a closing comma.  The whole match, trailing comma
included, is consumed (non-overlapping `findall` semantics). -/
def matchAwbAt (l : List Char) : Option (String × List Char) :=
  match l with
  | ',' :: c2 :: r2 =>
    if isSpaceChar c2 then
      let w := r2.takeWhile isWordChar
      if w.length = 0 then none
      else
        match r2.drop w.length with
        | ',' :: r3 => some (String.mk w, r3)
        | _ => none
    else none
  | _ => none

/-- Scanner loop for `re.findall` with the `reference_id_pattern`
`_([\d]+)`: an underscore followed by the captured maximal digit run.
Fuel-indexed so the definition computes; `l.length` fuel is always
enough because every step consumes at least one character. -/
def findallRefIdAux : Nat → List Char → List String
  | 0, _ => []
  | _ + 1, [] => []
  | n + 1, c :: rest =>
    if c = '_' then
      let ds := rest.takeWhile Char.isDigit
      if ds.length = 0 then findallRefIdAux n rest
      else String.mk ds :: findallRefIdAux n (rest.drop ds.length)
    else findallRefIdAux n rest

/-- `re.findall` of `_([\d]+)` over a character list. -/
def findallRefId (l : List Char) : List String :=
  findallRefIdAux l.length l

/-- Scanner loop for `re.findall` with the `job_number_pattern`. -/
def findallJobAux : Nat → List Char → List String
  | 0, _ => []
  | _ + 1, [] => []
  | n + 1, c :: rest =>
    match matchJobAt (c :: rest) with
    | some (g, rem) => g :: findallJobAux n rem
    | none => findallJobAux n rest

/-- `re.findall` of `Shipment:[\s]+([\w]+)` over a character list. -/
def findallJob (l : List Char) : List String :=
  findallJobAux l.length l

/-- Scanner loop for `re.findall` with `distribution_order_number_p`. -/
def findallDonAux : Nat → List Char → List String
  | 0, _ => []
  | _ + 1, [] => []
  | n + 1, c :: rest =>
    match matchDonAt (c :: rest) with
    | some (g, rem) => g :: findallDonAux n rem
    | none => findallDonAux n rest

/-- `re.findall` of `Shipment:[\s]+[\w]+-([\w]+)` over a character list. -/
def findallDon (l : List Char) : List String :=
  findallDonAux l.length l

/-- Scanner loop for `re.findall` with the `airwaybill_pattern`. -/
def findallAwbAux : Nat → List Char → List String
  | 0, _ => []
  | _ + 1, [] => []
  | n + 1, c :: rest =>
    match matchAwbAt (c :: rest) with
    | some (g, rem) => g :: findallAwbAux n rem
    | none => findallAwbAux n rest

/-- `re.findall` of `,[\s]([\w]+),` over a character list. -/
def findallAwb (l : List Char) : List String :=
  findallAwbAux l.length l

/-- Embedding of the `Shipment` object (`extract_logs.py` lines 137-183).
`filename` is `filepath.name`; the four extracted fields start unset and
are assigned by `Shipment.extract`. -/
structure Shipment where
  filepath : String
  rawtext : String
  filename : String
  reference_id : Option String := none
  job_number : Option String := none
  distribution_order_number : Option String := none
  airwaybill : Option String := none
deriving Repr, DecidableEq

/-- `Shipment.__init__`: store `filepath`, `rawtext` and derive
`filename = filepath.name`. -/
def Shipment.init (filepath rawtext : String) : Shipment :=
  { filepath := filepath, rawtext := rawtext, filename := pathName filepath }

/-- `Shipment.extract` (lines 169-183): index `[0]` of each of the four
`findall` results.  Python raises `IndexError` at the first empty result
and the partially-assigned object is discarded by the caller's
`except:`; this is embedded as `none`.  On success the four fields are
assigned on the object. -/
def Shipment.extract (s : Shipment) : Option Shipment :=
  match findallRefId s.filename.toList, findallJob s.rawtext.toList,
      findallDon s.rawtext.toList, findallAwb s.rawtext.toList with
  | r :: _, j :: _, d :: _, a :: _ =>
    some { s with reference_id := some r, job_number := some j,
                  distribution_order_number := some d, airwaybill := some a }
  | _, _, _, _ => none

/-- One row of the report dataframe (`extract_shipment_info` lines
380-387): the four extracted fields plus the source path and the
UNC-rerooted path. -/
structure ShipmentRecord where
  reference_id : String
  job_number : String
  distribution_order_number : String
  airwaybill : String
  path : String
  unc_path : String
deriving Repr, DecidableEq

/-- The settings consumed by the pipeline: the `commands` block of
`Shipments.__init__` (lines 217-225) plus the directory / UNC paths from
`Settings.__init__`, each with its source default. -/
structure Config where
  process_criteria : String := "ZRH"
  move_processed : Bool := false
  move_skipped : Bool := false
  warn_if_more_than_1Detail : Bool := true
  move_undhandled_files_to_warning : Bool := true
  processed_dir : String := "processed"
  skipped_dir : String := "skipped"
  warning_dir : String := "warning"
  unc_processed : String := "UNC_processed"

/-- The settings object with every field at its source default. -/
def defaultConfig : Config := {}

/-- A file enumerated by `self.source.glob`: its path, and the outcome
of `open(...).read()` — `none` embeds a read that raises (file vanished,
unreadable, undecodable). -/
structure TextFile where
  path : String
  content : Option String
deriving Repr, DecidableEq

/-- Terminal per-file outcome (spec's Disposition). -/
inductive Disposition where
  | Processed
  | Skipped
  | Warning
deriving Repr, DecidableEq

/-- Observable log entries emitted during a run: the pre-move debug
line, an error line from a caught-and-logged move failure, and the
warning line for a multi-detail or unparseable file. -/
inductive Event where
  | debugLog (msg : String)
  | errorLog (msg : String)
  | warnLog (name : String)
deriving Repr, DecidableEq

/-- Outcome of the underlying `os.rename` call, as discriminated by
`_move_file_safely`'s exception handlers: success, the two named
exceptions, or any other exception (caught by the bare `except:`). -/
inductive MoveResult where
  | success
  | permissionError
  | fileNotFoundError
  | otherError
deriving Repr, DecidableEq

/-- `_move_file_safely` (lines 266-285): the debug line is emitted
before `os.rename`; a `PermissionError` or `FileNotFoundError` is
caught and logged with `logging.error`; any other exception is caught
by the bare `except:` at lines 284-285, which builds a message but
never logs it.  No exception escapes. -/
def move_file_safely (fs : String → MoveResult) (path dst : String) :
    List Event :=
  Event.debugLog ("File is moved: " ++ path ++ " -> " ++ dst) ::
    match fs path with
    | MoveResult.success => []
    | MoveResult.permissionError =>
      [Event.errorLog ("File in use. File could not be moved. File:" ++
        pathName path)]
    | MoveResult.fileNotFoundError =>
      [Event.errorLog ("File was not found. " ++ pathName path)]
    | MoveResult.otherError => []

/-- `_file_could_not_be_handled` (lines 253-264): move to the warning
folder, only when `move_undhandled_files_to_warning` is set. -/
def file_could_not_be_handled (cfg : Config) (fs : String → MoveResult)
    (path : String) : List Event :=
  if cfg.move_undhandled_files_to_warning then
    move_file_safely fs path (cfg.warning_dir ++ "/" ++ pathName path)
  else []

/-- `_check_if_1Details` (lines 227-251): `true` (an issue) when the
toggle is set and `"1Details"` is absent from the rawtext. -/
def check_if_1Details (cfg : Config) (rawtext : String) : Bool :=
  if cfg.warn_if_more_than_1Detail then
    if strContains rawtext "1Details" then false else true
  else false

/-- The mutable state of the `extract_information` loop: the dataframe,
the four counters, plus the observable event log and the per-file
dispositions (ghost observations used to state the spec's claims). -/
structure RunState where
  df : List ShipmentRecord
  total_count : Nat := 0
  processed_count : Nat := 0
  skipped_count : Nat := 0
  warnings_count : Nat := 0
  events : List Event := []
  dispositions : List (String × Disposition) := []
deriving Repr, DecidableEq

/-- `extract_shipment_info` (lines 356-396): build a `Shipment`, run
`extract`; on success append the row and report `patterns_found = true`,
on the caught exception leave the dataframe alone and report `false`. -/
def extract_shipment_info (cfg : Config) (df : List ShipmentRecord)
    (textfile rawtext : String) : List ShipmentRecord × Bool :=
  match (Shipment.init textfile rawtext).extract with
  | some sh =>
    (df ++ [{ reference_id := sh.reference_id.getD "",
              job_number := sh.job_number.getD "",
              distribution_order_number := sh.distribution_order_number.getD "",
              airwaybill := sh.airwaybill.getD "",
              path := sh.filepath,
              unc_path := cfg.unc_processed ++ "/" ++ sh.filename }], true)
  | none => (df, false)

/-- The branch of the loop body for an in-scope, simple file
(lines 324-340): run the extractor, then either count as processed (and
optionally move to `processed/`) or warn (and optionally move to
`warning/`). -/
def processSimple (cfg : Config) (moveOk : String → MoveResult) (st : RunState)
    (path rawtext : String) : RunState :=
  let pr := extract_shipment_info cfg st.df path rawtext
  if pr.2 then
    { st with
      df := pr.1,
      processed_count := st.processed_count + 1,
      events := st.events ++
        (if cfg.move_processed then
          move_file_safely moveOk path (cfg.processed_dir ++ "/" ++ pathName path)
        else []),
      dispositions := st.dispositions ++ [(path, Disposition.Processed)] }
  else
    { st with
      df := pr.1,
      warnings_count := st.warnings_count + 1,
      events := st.events ++
        Event.warnLog (pathName path) :: file_could_not_be_handled cfg moveOk path,
      dispositions := st.dispositions ++ [(path, Disposition.Warning)] }

/-- One iteration of the `extract_information` loop (lines 310-345).
The `open`/`read` at line 314 sits outside every `try`, so a failing
read is an uncaught exception: `Except.error`.  Everything after the
read is total. -/
def processFile (cfg : Config) (moveOk : String → MoveResult) (st : RunState)
    (f : TextFile) : Except String RunState :=
  let st1 := { st with total_count := st.total_count + 1 }
  match f.content with
  | none => Except.error ("could not read " ++ f.path)
  | some rawtext =>
    if strContains rawtext cfg.process_criteria then
      if check_if_1Details cfg rawtext then
        Except.ok
          { st1 with
            warnings_count := st1.warnings_count + 1,
            events := st1.events ++
              Event.warnLog (pathName f.path) ::
                file_could_not_be_handled cfg moveOk f.path,
            dispositions := st1.dispositions ++ [(f.path, Disposition.Warning)] }
      else Except.ok (processSimple cfg moveOk st1 f.path rawtext)
    else
      Except.ok
        { st1 with
          skipped_count := st1.skipped_count + 1,
          events := st1.events ++
            (if cfg.move_skipped then
              move_file_safely moveOk f.path
                (cfg.skipped_dir ++ "/" ++ pathName f.path)
            else []),
          dispositions := st1.dispositions ++ [(f.path, Disposition.Skipped)] }

/-- The `for textfile in self.source.glob(...)` loop: sequential, and an
uncaught exception from an iteration aborts the whole batch. -/
def runLoop (cfg : Config) (moveOk : String → MoveResult) (st : RunState) :
    List TextFile → Except String RunState
  | [] => Except.ok st
  | f :: fs =>
    match processFile cfg moveOk st f with
    | Except.ok st2 => runLoop cfg moveOk st2 fs
    | Except.error e => Except.error e

/-- `extract_information` (lines 287-354): fold the loop body over the
enumerated files, starting from the empty dataframe and zeroed counters. -/
def extract_information (cfg : Config) (moveOk : String → MoveResult)
    (files : List TextFile) : Except String RunState :=
  runLoop cfg moveOk { df := [] } files

/-- Deduplication key used by `export_dataframe`. -/
def keyOf (r : ShipmentRecord) : String × String :=
  (r.distribution_order_number, r.airwaybill)

/-- `pandas.DataFrame.drop_duplicates(subset=[...])` with the default
`keep='first'`: walk in order, keep a row only when its key is new. -/
def dropDuplicatesBy (seen : List (String × String)) :
    List ShipmentRecord → List ShipmentRecord
  | [] => []
  | r :: rest =>
    if keyOf r ∈ seen then dropDuplicatesBy seen rest
    else r :: dropDuplicatesBy (keyOf r :: seen) rest

/-- `export_dataframe` (lines 398-411), restricted to the data
transformation it performs: the deduplicated table that is written out. -/
def export_dataframe (df : List ShipmentRecord) : List ShipmentRecord :=
  dropDuplicatesBy [] df

/-- Every filesystem move succeeds (an oracle for the happy path). -/
def allMovesOk : String → MoveResult := fun _ => MoveResult.success

/-- When all four `findall`s are non-empty, `Shipment.extract` assigns
the head (the leftmost match) of each result list. -/
theorem extract_some_of_all (s : Shipment) (r j d a : String)
    (rs js ds aws : List String)
    (h1 : findallRefId s.filename.toList = r :: rs)
    (h2 : findallJob s.rawtext.toList = j :: js)
    (h3 : findallDon s.rawtext.toList = d :: ds)
    (h4 : findallAwb s.rawtext.toList = a :: aws) :
    s.extract = some { s with reference_id := some r, job_number := some j,
                              distribution_order_number := some d,
                              airwaybill := some a } := by
  unfold Shipment.extract
  rw [h1, h2, h3, h4]

/-- When any of the four `findall`s is empty, `Shipment.extract` fails
(`IndexError` in the source, caught by the caller). -/
theorem extract_none_of_empty (s : Shipment)
    (h : findallRefId s.filename.toList = [] ∨
         findallJob s.rawtext.toList = [] ∨
         findallDon s.rawtext.toList = [] ∨
         findallAwb s.rawtext.toList = []) :
    s.extract = none := by
  unfold Shipment.extract
  rcases e1 : findallRefId s.filename.toList with _ | ⟨r, rs⟩ <;>
    rcases e2 : findallJob s.rawtext.toList with _ | ⟨j, js⟩ <;>
      rcases e3 : findallDon s.rawtext.toList with _ | ⟨d, ds⟩ <;>
        rcases e4 : findallAwb s.rawtext.toList with _ | ⟨a, aws⟩ <;>
          simp_all

/-- C9: for every (filename, rawtext) pair on which extraction succeeds,
running the field extractor again on the identical data yields the
identical record: re-running `extract` on the extracted shipment (same
filename, same rawtext) succeeds and reassigns exactly the same four
fields. -/
theorem extract_idempotent (s s' : Shipment) (h : s.extract = some s') :
    s'.extract = some s' := by
  rcases e1 : findallRefId s.filename.toList with _ | ⟨r, rs⟩
  · rw [extract_none_of_empty s (Or.inl e1)] at h
    exact absurd h (by simp)
  rcases e2 : findallJob s.rawtext.toList with _ | ⟨j, js⟩
  · rw [extract_none_of_empty s (Or.inr (Or.inl e2))] at h
    exact absurd h (by simp)
  rcases e3 : findallDon s.rawtext.toList with _ | ⟨d, ds⟩
  · rw [extract_none_of_empty s (Or.inr (Or.inr (Or.inl e3)))] at h
    exact absurd h (by simp)
  rcases e4 : findallAwb s.rawtext.toList with _ | ⟨a, aws⟩
  · rw [extract_none_of_empty s (Or.inr (Or.inr (Or.inr e4)))] at h
    exact absurd h (by simp)
  rw [extract_some_of_all s r j d a rs js ds aws e1 e2 e3 e4] at h
  injection h with h
  subst h
  exact extract_some_of_all _ r j d a rs js ds aws e1 e2 e3 e4

/-- C9 witness: on the end-to-end example data, extraction succeeds and
re-running it returns the very same shipment. -/
theorem extract_idempotent_witness :
    (Shipment.init "source/log_00123.txt"
        "ZRH 1Details Shipment: JOB456-DO789 x, AWB001, y").extract =
      some { filepath := "source/log_00123.txt",
             rawtext := "ZRH 1Details Shipment: JOB456-DO789 x, AWB001, y",
             filename := "log_00123.txt",
             reference_id := some "00123", job_number := some "JOB456",
             distribution_order_number := some "DO789",
             airwaybill := some "AWB001" } ∧
    ({ filepath := "source/log_00123.txt",
       rawtext := "ZRH 1Details Shipment: JOB456-DO789 x, AWB001, y",
       filename := "log_00123.txt",
       reference_id := some "00123", job_number := some "JOB456",
       distribution_order_number := some "DO789",
       airwaybill := some "AWB001" } : Shipment).extract =
      some { filepath := "source/log_00123.txt",
             rawtext := "ZRH 1Details Shipment: JOB456-DO789 x, AWB001, y",
             filename := "log_00123.txt",
             reference_id := some "00123", job_number := some "JOB456",
             distribution_order_number := some "DO789",
             airwaybill := some "AWB001" } :=
  ⟨by decide,
   extract_idempotent
     (Shipment.init "source/log_00123.txt"
       "ZRH 1Details Shipment: JOB456-DO789 x, AWB001, y") _ (by decide)⟩

/-- C3: whenever extraction succeeds, each of the four extracted fields
is the head of its pattern's scan-order (leftmost-first) match list; in
particular, when a pattern matches more than once the field is the first
match, not the last or any other occurrence. -/
theorem extract_first_match_wins (s s' : Shipment) (h : s.extract = some s') :
    s'.reference_id = (findallRefId s.filename.toList).head? ∧
    s'.job_number = (findallJob s.rawtext.toList).head? ∧
    s'.distribution_order_number = (findallDon s.rawtext.toList).head? ∧
    s'.airwaybill = (findallAwb s.rawtext.toList).head? := by
  rcases e1 : findallRefId s.filename.toList with _ | ⟨r, rs⟩
  · rw [extract_none_of_empty s (Or.inl e1)] at h
    exact absurd h (by simp)
  rcases e2 : findallJob s.rawtext.toList with _ | ⟨j, js⟩
  · rw [extract_none_of_empty s (Or.inr (Or.inl e2))] at h
    exact absurd h (by simp)
  rcases e3 : findallDon s.rawtext.toList with _ | ⟨d, ds⟩
  · rw [extract_none_of_empty s (Or.inr (Or.inr (Or.inl e3)))] at h
    exact absurd h (by simp)
  rcases e4 : findallAwb s.rawtext.toList with _ | ⟨a, aws⟩
  · rw [extract_none_of_empty s (Or.inr (Or.inr (Or.inr e4)))] at h
    exact absurd h (by simp)
  rw [extract_some_of_all s r j d a rs js ds aws e1 e2 e3 e4] at h
  injection h with h
  subst h
  simp [e1, e2, e3, e4]

/-- C3 witness: on a file where every one of the four patterns matches
twice, with distinct first and last matches, extraction picks the first
match of each pattern. -/
theorem extract_first_match_wins_witness :
    (Shipment.init "a_11_22.txt"
        "ZRH Shipment: J1-D1 , W1, Shipment: J2-D2 , W2,").extract =
      some { filepath := "a_11_22.txt",
             rawtext := "ZRH Shipment: J1-D1 , W1, Shipment: J2-D2 , W2,",
             filename := "a_11_22.txt",
             reference_id := some "11", job_number := some "J1",
             distribution_order_number := some "D1",
             airwaybill := some "W1" } ∧
    ({ filepath := "a_11_22.txt",
       rawtext := "ZRH Shipment: J1-D1 , W1, Shipment: J2-D2 , W2,",
       filename := "a_11_22.txt",
       reference_id := some "11", job_number := some "J1",
       distribution_order_number := some "D1",
       airwaybill := some "W1" } : Shipment).reference_id =
        (findallRefId (Shipment.init "a_11_22.txt"
          "ZRH Shipment: J1-D1 , W1, Shipment: J2-D2 , W2,").filename.toList).head? ∧
    ({ filepath := "a_11_22.txt",
       rawtext := "ZRH Shipment: J1-D1 , W1, Shipment: J2-D2 , W2,",
       filename := "a_11_22.txt",
       reference_id := some "11", job_number := some "J1",
       distribution_order_number := some "D1",
       airwaybill := some "W1" } : Shipment).job_number =
        (findallJob (Shipment.init "a_11_22.txt"
          "ZRH Shipment: J1-D1 , W1, Shipment: J2-D2 , W2,").rawtext.toList).head? ∧
    findallRefId "a_11_22.txt".toList = ["11", "22"] ∧
    findallJob "ZRH Shipment: J1-D1 , W1, Shipment: J2-D2 , W2,".toList =
      ["J1", "J2"] ∧
    findallDon "ZRH Shipment: J1-D1 , W1, Shipment: J2-D2 , W2,".toList =
      ["D1", "D2"] ∧
    findallAwb "ZRH Shipment: J1-D1 , W1, Shipment: J2-D2 , W2,".toList =
      ["W1", "W2"] := by
  refine ⟨by decide, ?_, ?_, by decide, by decide, by decide, by decide⟩
  · exact (extract_first_match_wins
      (Shipment.init "a_11_22.txt"
        "ZRH Shipment: J1-D1 , W1, Shipment: J2-D2 , W2,") _ (by decide)).1
  · exact (extract_first_match_wins
      (Shipment.init "a_11_22.txt"
        "ZRH Shipment: J1-D1 , W1, Shipment: J2-D2 , W2,") _ (by decide)).2.1

/-- C1: for an in-scope, simple file where all four patterns match, the
loop body appends exactly one record, whose four fields are the first
match of each pattern, and the file's disposition is Processed (with the
optional move to the processed folder). -/
theorem processed_record_first_matches
    (cfg : Config) (moveOk : String → MoveResult) (st : RunState) (f : TextFile)
    (rt r j d a : String) (rs js ds aws : List String)
    (hread : f.content = some rt)
    (hscope : strContains rt cfg.process_criteria = true)
    (hsimple : check_if_1Details cfg rt = false)
    (href : findallRefId (pathName f.path).toList = r :: rs)
    (hjob : findallJob rt.toList = j :: js)
    (hdon : findallDon rt.toList = d :: ds)
    (hawb : findallAwb rt.toList = a :: aws) :
    processFile cfg moveOk st f = Except.ok
      { st with
        df := st.df ++
          [{ reference_id := r, job_number := j,
             distribution_order_number := d, airwaybill := a,
             path := f.path,
             unc_path := cfg.unc_processed ++ "/" ++ pathName f.path }],
        total_count := st.total_count + 1,
        processed_count := st.processed_count + 1,
        events := st.events ++
          (if cfg.move_processed then
            move_file_safely moveOk f.path
              (cfg.processed_dir ++ "/" ++ pathName f.path)
          else []),
        dispositions := st.dispositions ++ [(f.path, Disposition.Processed)] } := by
  have hex := extract_some_of_all (Shipment.init f.path rt) r j d a rs js ds aws
    href hjob hdon hawb
  simp only [processFile, hread, hscope, hsimple, processSimple,
    extract_shipment_info, hex]
  simp [Shipment.init]

/-- C2: for an in-scope, simple file where at least one of the four
patterns has zero matches, the loop body appends nothing at all to the
report table — not even a partial record — and the file's disposition is
Warning (with the warning log and optional move to the warning folder). -/
theorem missing_pattern_no_record
    (cfg : Config) (moveOk : String → MoveResult) (st : RunState) (f : TextFile)
    (rt : String)
    (hread : f.content = some rt)
    (hscope : strContains rt cfg.process_criteria = true)
    (hsimple : check_if_1Details cfg rt = false)
    (hfail : findallRefId (pathName f.path).toList = [] ∨
             findallJob rt.toList = [] ∨
             findallDon rt.toList = [] ∨
             findallAwb rt.toList = []) :
    processFile cfg moveOk st f = Except.ok
      { st with
        total_count := st.total_count + 1,
        warnings_count := st.warnings_count + 1,
        events := st.events ++
          Event.warnLog (pathName f.path) ::
            file_could_not_be_handled cfg moveOk f.path,
        dispositions := st.dispositions ++ [(f.path, Disposition.Warning)] } := by
  have hex := extract_none_of_empty (Shipment.init f.path rt) hfail
  simp only [processFile, hread, hscope, hsimple, processSimple,
    extract_shipment_info, hex]
  simp

/-- C1 witness: the end-to-end example — filename `log_00123.txt`,
content with `ZRH`, `1Details`, `Shipment: JOB456-DO789` and a segment
`, AWB001,` — yields exactly one record with the four expected fields
and disposition Processed. -/
theorem processed_record_first_matches_witness :
    (({ path := "source/log_00123.txt",
        content := some "ZRH 1Details Shipment: JOB456-DO789 x, AWB001, y" } :
        TextFile).content =
      some "ZRH 1Details Shipment: JOB456-DO789 x, AWB001, y") ∧
    strContains "ZRH 1Details Shipment: JOB456-DO789 x, AWB001, y"
      defaultConfig.process_criteria = true ∧
    check_if_1Details defaultConfig
      "ZRH 1Details Shipment: JOB456-DO789 x, AWB001, y" = false ∧
    findallRefId (pathName "source/log_00123.txt").toList = ["00123"] ∧
    findallJob "ZRH 1Details Shipment: JOB456-DO789 x, AWB001, y".toList =
      ["JOB456"] ∧
    findallDon "ZRH 1Details Shipment: JOB456-DO789 x, AWB001, y".toList =
      ["DO789"] ∧
    findallAwb "ZRH 1Details Shipment: JOB456-DO789 x, AWB001, y".toList =
      ["AWB001"] ∧
    processFile defaultConfig allMovesOk { df := [] }
      { path := "source/log_00123.txt",
        content := some "ZRH 1Details Shipment: JOB456-DO789 x, AWB001, y" } =
      Except.ok
        { df := [{ reference_id := "00123", job_number := "JOB456",
                   distribution_order_number := "DO789",
                   airwaybill := "AWB001",
                   path := "source/log_00123.txt",
                   unc_path := "UNC_processed/log_00123.txt" }],
          total_count := 1, processed_count := 1, skipped_count := 0,
          warnings_count := 0, events := [],
          dispositions := [("source/log_00123.txt", Disposition.Processed)] } :=
  ⟨rfl, by decide, by decide, by decide, by decide, by decide, by decide,
   processed_record_first_matches defaultConfig allMovesOk { df := [] }
     { path := "source/log_00123.txt",
       content := some "ZRH 1Details Shipment: JOB456-DO789 x, AWB001, y" }
     "ZRH 1Details Shipment: JOB456-DO789 x, AWB001, y"
     "00123" "JOB456" "DO789" "AWB001" [] [] [] []
     rfl (by decide) (by decide) (by decide) (by decide) (by decide)
     (by decide)⟩

/-- C2 witness: an in-scope, simple file with no `Shipment:` line at all
gets disposition Warning, and nothing — not even the reference id that
did match — is appended to the report table. -/
theorem missing_pattern_no_record_witness :
    (({ path := "source/log_99.txt",
        content := some "ZRH 1Details nothing else here" } :
        TextFile).content = some "ZRH 1Details nothing else here") ∧
    strContains "ZRH 1Details nothing else here"
      defaultConfig.process_criteria = true ∧
    check_if_1Details defaultConfig "ZRH 1Details nothing else here" = false ∧
    (findallRefId (pathName "source/log_99.txt").toList = [] ∨
     findallJob "ZRH 1Details nothing else here".toList = [] ∨
     findallDon "ZRH 1Details nothing else here".toList = [] ∨
     findallAwb "ZRH 1Details nothing else here".toList = []) ∧
    processFile defaultConfig allMovesOk { df := [] }
      { path := "source/log_99.txt",
        content := some "ZRH 1Details nothing else here" } =
      Except.ok
        { df := [], total_count := 1, processed_count := 0,
          skipped_count := 0, warnings_count := 1,
          events := [Event.warnLog "log_99.txt",
                     Event.debugLog
                       "File is moved: source/log_99.txt -> warning/log_99.txt"],
          dispositions := [("source/log_99.txt", Disposition.Warning)] } :=
  ⟨rfl, by decide, by decide, by decide,
   missing_pattern_no_record defaultConfig allMovesOk { df := [] }
     { path := "source/log_99.txt",
       content := some "ZRH 1Details nothing else here" }
     "ZRH 1Details nothing else here"
     rfl (by decide) (by decide) (by decide)⟩

/-- `Shipment.extract` never changes the stored filepath. -/
theorem extract_filepath (s s' : Shipment) (h : s.extract = some s') :
    s'.filepath = s.filepath := by
  unfold Shipment.extract at h
  split at h
  · injection h with h
    subst h
    rfl
  · exact absurd h (by simp)

/-- Any record present after one loop iteration was either already in
the dataframe or belongs to that iteration's file — and then that file
was in scope and passed the 1Details check. -/
theorem processFile_df_provenance (cfg : Config) (m : String → MoveResult)
    (st : RunState) (g : TextFile) (st2 : RunState)
    (h : processFile cfg m st g = Except.ok st2) :
    ∀ rec ∈ st2.df, rec ∈ st.df ∨
      (rec.path = g.path ∧ ∃ rt, g.content = some rt ∧
        strContains rt cfg.process_criteria = true ∧
        check_if_1Details cfg rt = false) := by
  intro rec hrec
  rcases g with ⟨gp, gc⟩
  cases gc with
  | none => simp [processFile] at h
  | some rt =>
    cases hscope : strContains rt cfg.process_criteria with
    | false =>
      simp [processFile, hscope] at h
      subst h
      exact Or.inl hrec
    | true =>
      cases hdet : check_if_1Details cfg rt with
      | true =>
        simp [processFile, hscope, hdet] at h
        subst h
        exact Or.inl hrec
      | false =>
        cases hex : (Shipment.init gp rt).extract with
        | none =>
          simp [processFile, hscope, hdet, processSimple,
            extract_shipment_info, hex] at h
          subst h
          exact Or.inl hrec
        | some sh =>
          simp [processFile, hscope, hdet, processSimple,
            extract_shipment_info, hex] at h
          subst h
          simp only [List.mem_append, List.mem_singleton] at hrec
          rcases hrec with hin | hrec
          · exact Or.inl hin
          · refine Or.inr ⟨?_, rt, rfl, hscope, hdet⟩
            rw [hrec]
            exact extract_filepath _ _ hex

/-- Batch version of the provenance lemma: every record in the final
dataframe either was there initially or stems from an enumerated file
that was in scope and passed the 1Details check. -/
theorem runLoop_df_provenance (cfg : Config) (m : String → MoveResult) :
    ∀ (files : List TextFile) (st st' : RunState),
      runLoop cfg m st files = Except.ok st' →
      ∀ rec ∈ st'.df, rec ∈ st.df ∨
        ∃ g ∈ files, rec.path = g.path ∧ ∃ rt, g.content = some rt ∧
          strContains rt cfg.process_criteria = true ∧
          check_if_1Details cfg rt = false := by
  intro files
  induction files with
  | nil =>
    intro st st' h rec hrec
    unfold runLoop at h
    injection h with h
    subst h
    exact Or.inl hrec
  | cons g fs ih =>
    intro st st' h rec hrec
    unfold runLoop at h
    cases hp : processFile cfg m st g with
    | error e => rw [hp] at h; exact absurd h (by simp)
    | ok st2 =>
      rw [hp] at h
      rcases ih st2 st' h rec hrec with hin | ⟨g', hg', hpath, hrest⟩
      · rcases processFile_df_provenance cfg m st g st2 hp rec hin with
          h1 | ⟨hpath, hrt⟩
        · exact Or.inl h1
        · exact Or.inr ⟨g, by simp, hpath, hrt⟩
      · exact Or.inr ⟨g', by simp [hg'], hpath, hrest⟩

/-- C4: a file whose rawtext lacks the scope marker is counted and
dispositioned Skipped, contributes nothing to the dataframe, is moved to
the skipped folder exactly when `move_skipped` is set — and no record of
that file ever appears in the final report of any run that enumerates
it. -/
theorem skipped_files_not_reported
    (cfg : Config) (moveOk : String → MoveResult) (st : RunState) (f : TextFile)
    (rt : String)
    (hread : f.content = some rt)
    (hscope : strContains rt cfg.process_criteria = false) :
    processFile cfg moveOk st f = Except.ok
      { st with
        total_count := st.total_count + 1,
        skipped_count := st.skipped_count + 1,
        events := st.events ++
          (if cfg.move_skipped then
            move_file_safely moveOk f.path
              (cfg.skipped_dir ++ "/" ++ pathName f.path)
          else []),
        dispositions := st.dispositions ++ [(f.path, Disposition.Skipped)] } ∧
    ∀ (files : List TextFile) (st' : RunState),
      (∀ g ∈ files, g.path = f.path → g = f) →
      extract_information cfg moveOk files = Except.ok st' →
      ∀ rec ∈ st'.df, rec.path ≠ f.path := by
  constructor
  · simp [processFile, hread, hscope]
  · intro files st' huniq hrun rec hrec hpath
    rcases runLoop_df_provenance cfg moveOk files { df := [] } st' hrun rec hrec
      with hin | ⟨g, hg, hgpath, rt', hrt', hsc, _⟩
    · simp at hin
    · have hgf : g = f := huniq g hg (hgpath ▸ hpath)
      rw [hgf, hread] at hrt'
      injection hrt' with hrt'
      rw [hrt'] at hscope
      rw [hscope] at hsc
      exact absurd hsc (by simp)

/-- C4 witness: a file without the scope marker, in a one-file run: it
is skipped with no move (the toggle is off by default) and the exported
dataframe of the run holds no record of it. -/
theorem skipped_files_not_reported_witness :
    (processFile defaultConfig allMovesOk { df := [] }
      { path := "source/other.txt", content := some "nothing relevant" } =
      Except.ok
        { df := [], total_count := 1, processed_count := 0,
          skipped_count := 1, warnings_count := 0, events := [],
          dispositions := [("source/other.txt", Disposition.Skipped)] }) ∧
    ∀ (files : List TextFile) (st' : RunState),
      (∀ g ∈ files, g.path = "source/other.txt" →
        g = { path := "source/other.txt", content := some "nothing relevant" }) →
      extract_information defaultConfig allMovesOk files = Except.ok st' →
      ∀ rec ∈ st'.df, rec.path ≠ "source/other.txt" :=
  skipped_files_not_reported defaultConfig allMovesOk { df := [] }
    { path := "source/other.txt", content := some "nothing relevant" }
    "nothing relevant" rfl (by decide)


/-- C5: for an in-scope file, when `warn_if_more_than_1Detail` is set
and `1Details` is absent the disposition is Warning and the dataframe is
left untouched — no hypothesis about the four patterns is needed, the
extractor's outcome never enters this branch; when the toggle is unset
the file is handed to the simple-file branch regardless of `1Details`. -/
theorem multi_detail_guard
    (cfg : Config) (moveOk : String → MoveResult) (st : RunState) (f : TextFile)
    (rt : String)
    (hread : f.content = some rt)
    (hscope : strContains rt cfg.process_criteria = true) :
    (cfg.warn_if_more_than_1Detail = true →
      strContains rt "1Details" = false →
      processFile cfg moveOk st f = Except.ok
        { st with
          total_count := st.total_count + 1,
          warnings_count := st.warnings_count + 1,
          events := st.events ++
            Event.warnLog (pathName f.path) ::
              file_could_not_be_handled cfg moveOk f.path,
          dispositions := st.dispositions ++ [(f.path, Disposition.Warning)] }) ∧
    (cfg.warn_if_more_than_1Detail = false →
      processFile cfg moveOk st f = Except.ok
        (processSimple cfg moveOk { st with total_count := st.total_count + 1 }
          f.path rt)) := by
  constructor
  · intro ht habs
    have hdet : check_if_1Details cfg rt = true := by
      simp [check_if_1Details, ht, habs]
    simp [processFile, hread, hscope, hdet]
  · intro hf
    have hdet : check_if_1Details cfg rt = false := by
      simp [check_if_1Details, hf]
    simp [processFile, hread, hscope, hdet]

/-- C5 witness: an in-scope file on which all four patterns would match
cleanly, but with `1Details` absent and the default toggle set: the
first branch of the guard applies (and, were the toggle unset, the file
would go to the simple branch). -/
theorem multi_detail_guard_witness :
    ((defaultConfig.warn_if_more_than_1Detail = true →
      strContains "ZRH Shipment: JOB456-DO789 x, AWB001, y" "1Details" = false →
      processFile defaultConfig allMovesOk { df := [] }
        { path := "source/log_00123.txt",
          content := some "ZRH Shipment: JOB456-DO789 x, AWB001, y" } =
        Except.ok
          { ({ df := [] } : RunState) with
            total_count := ({ df := [] } : RunState).total_count + 1,
            warnings_count := ({ df := [] } : RunState).warnings_count + 1,
            events := ({ df := [] } : RunState).events ++
              Event.warnLog (pathName "source/log_00123.txt") ::
                file_could_not_be_handled defaultConfig allMovesOk
                  "source/log_00123.txt",
            dispositions := ({ df := [] } : RunState).dispositions ++
              [("source/log_00123.txt", Disposition.Warning)] }) ∧
    (defaultConfig.warn_if_more_than_1Detail = false →
      processFile defaultConfig allMovesOk { df := [] }
        { path := "source/log_00123.txt",
          content := some "ZRH Shipment: JOB456-DO789 x, AWB001, y" } =
        Except.ok
          (processSimple defaultConfig allMovesOk
            { ({ df := [] } : RunState) with
              total_count := ({ df := [] } : RunState).total_count + 1 }
            "source/log_00123.txt"
            "ZRH Shipment: JOB456-DO789 x, AWB001, y"))) ∧
    strContains "ZRH Shipment: JOB456-DO789 x, AWB001, y" "1Details" = false ∧
    findallJob "ZRH Shipment: JOB456-DO789 x, AWB001, y".toList = ["JOB456"] :=
  ⟨multi_detail_guard defaultConfig allMovesOk { df := [] }
    { path := "source/log_00123.txt",
      content := some "ZRH Shipment: JOB456-DO789 x, AWB001, y" }
    "ZRH Shipment: JOB456-DO789 x, AWB001, y" rfl (by decide),
   by decide, by decide⟩

/-- Generalisation of the dedup property over the `seen` accumulator:
the keep-first pass retains, for each key, the first record with that
key — none at all when the key was already seen. -/
theorem dropDuplicatesBy_filter (k : String × String) :
    ∀ (df : List ShipmentRecord) (seen : List (String × String)),
      (dropDuplicatesBy seen df).filter (fun r => decide (keyOf r = k)) =
        if k ∈ seen then []
        else (df.filter (fun r => decide (keyOf r = k))).take 1 := by
  intro df
  induction df with
  | nil =>
    intro seen
    simp [dropDuplicatesBy]
  | cons r rest ih =>
    intro seen
    by_cases hk : keyOf r ∈ seen
    · by_cases hks : k ∈ seen
      · simp [dropDuplicatesBy, hk, ih, hks]
      · have hne : keyOf r ≠ k := fun he => hks (he ▸ hk)
        simp [dropDuplicatesBy, hk, ih, hks, hne]
    · by_cases hkr : keyOf r = k
      · subst hkr
        simp [dropDuplicatesBy, hk, ih]
      · simp [dropDuplicatesBy, hk, ih, hkr, List.mem_cons, Ne.symm hkr]

/-- C6: the exported table contains, for every
(distribution_order_number, airwaybill) key, exactly the first record in
arrival order carrying that key; every later record with the same key is
dropped silently, whatever its other fields hold. -/
theorem dedup_keeps_first (df : List ShipmentRecord) (k : String × String) :
    (export_dataframe df).filter (fun r => decide (keyOf r = k)) =
      (df.filter (fun r => decide (keyOf r = k))).take 1 := by
  rw [export_dataframe, dropDuplicatesBy_filter k df]
  simp

/-- Every branch after a successful read ends in `Except.ok`: the
extraction failure is swallowed by `extract_shipment_info`'s bare
`except:` and a move failure by `_move_file_safely`'s handlers. -/
theorem processFile_ok_of_read (cfg : Config) (m : String → MoveResult)
    (st : RunState) (f : TextFile) (rt : String) (h : f.content = some rt) :
    ∃ st2, processFile cfg m st f = Except.ok st2 := by
  cases hp : processFile cfg m st f with
  | ok st2 => exact ⟨st2, rfl⟩
  | error e =>
    exfalso
    rcases f with ⟨fp, fc⟩
    obtain rfl : fc = some rt := h
    simp only [processFile] at hp
    split at hp
    · split at hp
      · exact Except.noConfusion hp
      · exact Except.noConfusion hp
    · exact Except.noConfusion hp

/-- Batch form: when every enumerated file reads successfully, the loop
never aborts, whatever the patterns match and whatever moves fail. -/
theorem runLoop_ok_of_reads (cfg : Config) (m : String → MoveResult) :
    ∀ (files : List TextFile), (∀ f ∈ files, f.content ≠ none) →
      ∀ st0, ∃ st, runLoop cfg m st0 files = Except.ok st := by
  intro files
  induction files with
  | nil =>
    intro _ st0
    exact ⟨st0, rfl⟩
  | cons f fs ih =>
    intro h st0
    rcases hc : f.content with _ | rt
    · exact absurd hc (h f (by simp))
    · obtain ⟨st2, hp⟩ := processFile_ok_of_read cfg m st0 f rt hc
      obtain ⟨st3, hr⟩ := ih (fun g hg => h g (by simp [hg])) st2
      refine ⟨st3, ?_⟩
      unfold runLoop
      rw [hp]
      exact hr

/-- C7 counterexample: one unreadable file aborts the whole batch — the
`open`/`read` sits outside every `try`, so the fault is not converted
into a disposition, and the second (perfectly processable) file is never
reached. -/
theorem read_fault_aborts_batch :
    extract_information defaultConfig allMovesOk
      [{ path := "source/gone.txt", content := none },
       { path := "source/log_00123.txt",
         content := some "ZRH 1Details Shipment: JOB456-DO789 x, AWB001, y" }] =
      Except.error "could not read source/gone.txt" := rfl

/-- C7 (amended): every fault arising after a file's text has been read
— classifying, extracting, moving — is caught inside the loop iteration
and converted into a disposition plus a log entry, so when every
enumerated file is readable no exception escapes and the batch
completes; a fault while reading a file's text, however, is not caught
and aborts the batch. -/
theorem faults_converted_when_reads_succeed
    (cfg : Config) (moveOk : String → MoveResult) (files : List TextFile)
    (h : ∀ f ∈ files, f.content ≠ none) :
    ∃ st, extract_information cfg moveOk files = Except.ok st :=
  runLoop_ok_of_reads cfg moveOk files h { df := [] }

/-- C7 witness: a batch of a cleanly-extracting file, a file that
matches no pattern, and a skipped file runs to completion. -/
theorem faults_converted_when_reads_succeed_witness :
    (∀ f ∈ ([{ path := "source/log_00123.txt",
               content := some "ZRH 1Details Shipment: JOB456-DO789 x, AWB001, y" },
             { path := "source/log_9.txt", content := some "ZRH stuff" },
             { path := "source/other.txt", content := some "boring" }] :
        List TextFile), f.content ≠ none) ∧
    ∃ st, extract_information defaultConfig allMovesOk
      [{ path := "source/log_00123.txt",
         content := some "ZRH 1Details Shipment: JOB456-DO789 x, AWB001, y" },
       { path := "source/log_9.txt", content := some "ZRH stuff" },
       { path := "source/other.txt", content := some "boring" }] =
      Except.ok st :=
  ⟨by decide,
   faults_converted_when_reads_succeed defaultConfig allMovesOk
     [{ path := "source/log_00123.txt",
        content := some "ZRH 1Details Shipment: JOB456-DO789 x, AWB001, y" },
      { path := "source/log_9.txt", content := some "ZRH stuff" },
      { path := "source/other.txt", content := some "boring" }]
     (by decide)⟩

/-- Forgets the event log of a run state, keeping the dataframe, the
four counters and the dispositions — everything the report and the
summary line are built from. -/
def stripEvents (st : RunState) : RunState :=
  { st with events := [] }

/-- One loop iteration under two different filesystems (move oracles)
and two states agreeing outside the event log produces states that again
agree outside the event log: a failed move changes neither the
disposition nor the dataframe nor any counter. -/
theorem processFile_stripEvents (cfg : Config) (m1 m2 : String → MoveResult)
    (st1 st2 : RunState) (f : TextFile)
    (h : stripEvents st1 = stripEvents st2) :
    (processFile cfg m1 st1 f).map stripEvents =
      (processFile cfg m2 st2 f).map stripEvents := by
  unfold stripEvents at h
  simp only [RunState.mk.injEq, and_true, true_and] at h
  obtain ⟨hdf, htot, hproc, hskip, hwarn, hdisp⟩ := h
  rcases f with ⟨fp, fc⟩
  cases fc with
  | none => rfl
  | some rt =>
    cases hscope : strContains rt cfg.process_criteria with
    | false =>
      simp [processFile, hscope, Except.map, stripEvents,
        hdf, htot, hproc, hskip, hwarn, hdisp]
    | true =>
      cases hdet : check_if_1Details cfg rt with
      | true =>
        simp [processFile, hscope, hdet, Except.map, stripEvents,
          hdf, htot, hproc, hskip, hwarn, hdisp]
      | false =>
        cases hex : (Shipment.init fp rt).extract with
        | none =>
          simp [processFile, hscope, hdet, processSimple,
            extract_shipment_info, hex, Except.map, stripEvents,
            hdf, htot, hproc, hskip, hwarn, hdisp]
        | some sh =>
          simp [processFile, hscope, hdet, processSimple,
            extract_shipment_info, hex, Except.map, stripEvents,
            hdf, htot, hproc, hskip, hwarn, hdisp]

/-- Batch form of move-failure isolation. -/
theorem runLoop_stripEvents (cfg : Config) (m1 m2 : String → MoveResult) :
    ∀ (files : List TextFile) (st1 st2 : RunState),
      stripEvents st1 = stripEvents st2 →
      (runLoop cfg m1 st1 files).map stripEvents =
        (runLoop cfg m2 st2 files).map stripEvents := by
  intro files
  induction files with
  | nil =>
    intro st1 st2 h
    simp [runLoop, Except.map, h]
  | cons f fs ih =>
    intro st1 st2 h
    have hp := processFile_stripEvents cfg m1 m2 st1 st2 f h
    unfold runLoop
    cases h1 : processFile cfg m1 st1 f with
    | error e =>
      cases h2 : processFile cfg m2 st2 f with
      | error e2 =>
        rw [h1, h2] at hp
        simp [Except.map] at hp
        simp [Except.map, hp]
      | ok s2 =>
        rw [h1, h2] at hp
        simp [Except.map] at hp
    | ok s1 =>
      cases h2 : processFile cfg m2 st2 f with
      | error e2 =>
        rw [h1, h2] at hp
        simp [Except.map] at hp
      | ok s2 =>
        rw [h1, h2] at hp
        simp [Except.map] at hp
        exact ih s1 s2 hp

/-- Every filesystem move fails with an exception other than the two
handled by name (e.g. `FileExistsError` on an occupied destination). -/
def allMovesOtherError : String → MoveResult := fun _ => MoveResult.otherError

/-- Every filesystem move fails with `PermissionError`. -/
def allMovesPermissionError : String → MoveResult :=
  fun _ => MoveResult.permissionError

/-- C8 counterexample: a move failing with an exception other than
`PermissionError` or `FileNotFoundError` is caught by the bare
`except:`, which builds a message and never logs it — the emitted log
holds only the pre-move debug line and no error entry, so this failure
is not logged; a `PermissionError`, by contrast, is. -/
theorem move_failure_not_logged :
    move_file_safely allMovesOtherError "source/a.txt" "warning/a.txt" =
      [Event.debugLog "File is moved: source/a.txt -> warning/a.txt"] ∧
    move_file_safely allMovesPermissionError "source/a.txt" "warning/a.txt" =
      [Event.debugLog "File is moved: source/a.txt -> warning/a.txt",
       Event.errorLog "File in use. File could not be moved. File:a.txt"] :=
  ⟨rfl, rfl⟩

/-- C8 (amended): a move attempt never raises, so the run continues with
the next file, and the run's dataframe, counters and dispositions are
identical under any two filesystems, however many moves fail — a move
failure neither changes a disposition nor drops a record from the
report; a failed move is logged exactly when it failed with
`PermissionError` or `FileNotFoundError`, while any other I/O failure is
caught by the bare `except:` but dropped without a log entry. -/
theorem move_failures_isolated :
    (∀ (fs : String → MoveResult) (p d : String),
      (∃ m, Event.errorLog m ∈ move_file_safely fs p d) ↔
        (fs p = MoveResult.permissionError ∨
         fs p = MoveResult.fileNotFoundError)) ∧
    ∀ (cfg : Config) (m1 m2 : String → MoveResult) (files : List TextFile),
      (extract_information cfg m1 files).map stripEvents =
        (extract_information cfg m2 files).map stripEvents := by
  constructor
  · intro fs p d
    unfold move_file_safely
    cases h : fs p <;> simp
  · exact fun cfg m1 m2 files => runLoop_stripEvents cfg m1 m2 files _ _ rfl

/-- Each loop iteration bumps the total counter by one and exactly one
of the processed/skipped/warnings counters by one. -/
theorem processFile_counters (cfg : Config) (m : String → MoveResult)
    (st : RunState) (f : TextFile) (st2 : RunState)
    (h : processFile cfg m st f = Except.ok st2) :
    st2.total_count = st.total_count + 1 ∧
    st2.processed_count + st2.skipped_count + st2.warnings_count =
      st.processed_count + st.skipped_count + st.warnings_count + 1 := by
  rcases f with ⟨fp, fc⟩
  cases fc with
  | none => simp [processFile] at h
  | some rt =>
    cases hscope : strContains rt cfg.process_criteria with
    | false =>
      simp [processFile, hscope] at h
      subst h
      simp
      omega
    | true =>
      cases hdet : check_if_1Details cfg rt with
      | true =>
        simp [processFile, hscope, hdet] at h
        subst h
        simp
        omega
      | false =>
        cases hex : (Shipment.init fp rt).extract with
        | none =>
          simp [processFile, hscope, hdet, processSimple,
            extract_shipment_info, hex] at h
          subst h
          simp
          omega
        | some sh =>
          simp [processFile, hscope, hdet, processSimple,
            extract_shipment_info, hex] at h
          subst h
          simp
          omega

/-- Batch form of the counter bookkeeping, generalised over the starting
state. -/
theorem runLoop_counters (cfg : Config) (m : String → MoveResult) :
    ∀ (files : List TextFile) (st st' : RunState),
      runLoop cfg m st files = Except.ok st' →
      st'.total_count = st.total_count + files.length ∧
      st'.processed_count + st'.skipped_count + st'.warnings_count +
          st.total_count =
        st.processed_count + st.skipped_count + st.warnings_count +
          st'.total_count := by
  intro files
  induction files with
  | nil =>
    intro st st' h
    unfold runLoop at h
    injection h with h
    subst h
    refine ⟨by simp, by omega⟩
  | cons f fs ih =>
    intro st st' h
    unfold runLoop at h
    cases hp : processFile cfg m st f with
    | error e => rw [hp] at h; exact Except.noConfusion h
    | ok st2 =>
      rw [hp] at h
      obtain ⟨h1, h2⟩ := processFile_counters cfg m st f st2 hp
      obtain ⟨h3, h4⟩ := ih st2 st' h
      constructor
      · rw [h3, h1, List.length_cons]
        omega
      · omega

/-- C10: the four run counters partition the enumerated files — on any
completed run, the total counter equals the number of enumerated files
and equals processed plus skipped plus warnings. -/
theorem counters_partition (cfg : Config) (moveOk : String → MoveResult)
    (files : List TextFile) (st : RunState)
    (h : extract_information cfg moveOk files = Except.ok st) :
    st.total_count = files.length ∧
    st.total_count =
      st.processed_count + st.skipped_count + st.warnings_count := by
  obtain ⟨h1, h2⟩ := runLoop_counters cfg moveOk files { df := [] } st h
  constructor
  · simpa using h1
  · simp only [show ({ df := [] } : RunState).total_count = 0 from rfl,
      show ({ df := [] } : RunState).processed_count = 0 from rfl,
      show ({ df := [] } : RunState).skipped_count = 0 from rfl,
      show ({ df := [] } : RunState).warnings_count = 0 from rfl] at h2
    omega

/-- C10 witness: a run over one processed, one skipped and one warned
file ends with total 3 = 1 + 1 + 1. -/
theorem counters_partition_witness :
    extract_information defaultConfig allMovesOk
      [{ path := "source/log_00123.txt",
         content := some "ZRH 1Details Shipment: JOB456-DO789 x, AWB001, y" },
       { path := "source/other.txt", content := some "boring" },
       { path := "source/log_9.txt", content := some "ZRH stuff" }] =
      Except.ok
        { df := [{ reference_id := "00123", job_number := "JOB456",
                   distribution_order_number := "DO789",
                   airwaybill := "AWB001",
                   path := "source/log_00123.txt",
                   unc_path := "UNC_processed/log_00123.txt" }],
          total_count := 3, processed_count := 1, skipped_count := 1,
          warnings_count := 1,
          events := [Event.warnLog "log_9.txt",
                     Event.debugLog
                       "File is moved: source/log_9.txt -> warning/log_9.txt"],
          dispositions := [("source/log_00123.txt", Disposition.Processed),
                           ("source/other.txt", Disposition.Skipped),
                           ("source/log_9.txt", Disposition.Warning)] } ∧
    (3 : Nat) =
      [({ path := "source/log_00123.txt",
          content := some "ZRH 1Details Shipment: JOB456-DO789 x, AWB001, y" } :
          TextFile),
       { path := "source/other.txt", content := some "boring" },
       { path := "source/log_9.txt", content := some "ZRH stuff" }].length ∧
    (3 : Nat) = 1 + 1 + 1 :=
  ⟨rfl,
   counters_partition defaultConfig allMovesOk
     [{ path := "source/log_00123.txt",
        content := some "ZRH 1Details Shipment: JOB456-DO789 x, AWB001, y" },
      { path := "source/other.txt", content := some "boring" },
      { path := "source/log_9.txt", content := some "ZRH stuff" }]
     { df := [{ reference_id := "00123", job_number := "JOB456",
                distribution_order_number := "DO789",
                airwaybill := "AWB001",
                path := "source/log_00123.txt",
                unc_path := "UNC_processed/log_00123.txt" }],
       total_count := 3, processed_count := 1, skipped_count := 1,
       warnings_count := 1,
       events := [Event.warnLog "log_9.txt",
                  Event.debugLog
                    "File is moved: source/log_9.txt -> warning/log_9.txt"],
       dispositions := [("source/log_00123.txt", Disposition.Processed),
                        ("source/other.txt", Disposition.Skipped),
                        ("source/log_9.txt", Disposition.Warning)] }
     rfl⟩
